import Mathlib

/-!
Shallow embedding of the Ouvira backend's authentication and access-control
services (Django, `src/backend/apps/...`), together with theorems settling the
frozen claims about them.

Conventions of the embedding:
* Database tables are Lean lists of records; Django `objects.filter(...).first()`
  /`find` become `List.find?`, `exists()` becomes `List.any`.
* `timezone.now()` is passed explicitly as a `Nat` measured in minutes.
* A row update (`instance.save()`) replaces the row in the list, either by
  primary key (for tables whose model has one in the embedding) or by replacing
  the first occurrence of the old record value (`replaceRec`).
* Randomly generated values (OTP codes, invitation tokens) are passed in as
  parameters: the services treat them as opaque data.
* `user.check_password(pw)` is modelled as equality with the stored credential;
  the password hash plays no role in any claim.
-/

namespace Ouvira

/-- Replace the first occurrence of `old` in the list by `new`.
Models `instance.save()` for rows identified by their field values. -/
def replaceRec {α : Type} [BEq α] : List α → α → α → List α
  | [], _, _ => []
  | x :: xs, old, new => if x == old then new :: xs else x :: replaceRec xs old new

/-- `isOkE e` is true when the call did not raise. -/
def isOkE {α : Type} (e : Except String α) : Bool :=
  match e with
  | Except.ok _ => true
  | Except.error _ => false

/-- Python `str.lower()` (character-wise; coincides with it on ASCII data such
as the emails and role names here). -/
def py_lower (s : String) : String := String.mk (s.data.map Char.toLower)

/-- Python `str.strip()`: drop leading and trailing whitespace. -/
def py_strip (s : String) : String :=
  String.mk
    (((s.data.dropWhile Char.isWhitespace).reverse.dropWhile
      Char.isWhitespace).reverse)

/-! ## Error messages

Modelled from the spec: the message table `apps.shared.messages.error`
(`ERROR_MESSAGES`) is not under `src/`; only its keys appear in the service
code. Each message is modelled by its key. Every claim below depends only on
*which* table entry a code path returns, never on the display text. -/

def ERROR_MESSAGES (key : String) : String := key

/-! ## OTP service (`apps/identity/auth_app/services/otp_service.py`,
model `OTP` in `apps/identity/auth_app/models.py`) -/

/-- Row of the `OTP` table. Times are minutes. -/
structure OTP where
  phone_number : String
  otp_code : String
  expires_at : Nat
  attempts : Nat
  is_blocked : Bool
  blocked_until : Option Nat
deriving Repr, DecidableEq

/-- `MAX_ATTEMPTS` in `otp_service.py`. -/
def MAX_ATTEMPTS : Nat := 3

/-- `BLOCK_MINUTES` in `otp_service.py`. -/
def BLOCK_MINUTES : Nat := 15

/-- `OTP_EXPIRY_MINUTES` in `otp_service.py`. -/
def OTP_EXPIRY_MINUTES : Nat := 60

/-- `OTPService.get_otp`: most recent OTP for a phone number (the table is
ordered newest first; `create_otp` prepends). -/
def get_otp (db : List OTP) (phone : String) : Option OTP :=
  db.find? (fun o => o.phone_number == phone)

/-- `OTPService.create_otp`: deletes any existing OTPs for the phone, then
creates a fresh record. The generated code is a parameter (random in source). -/
def create_otp (db : List OTP) (now : Nat) (phone code : String)
    (expiry_minutes : Nat := OTP_EXPIRY_MINUTES) : OTP × List OTP :=
  let kept := db.filter (fun o => !(o.phone_number == phone))
  let otp : OTP :=
    { phone_number := phone, otp_code := code, expires_at := now + expiry_minutes,
      attempts := 0, is_blocked := false, blocked_until := none }
  (otp, otp :: kept)

/-- Truthiness of `otp_entry.blocked_until and otp_entry.blocked_until > now`
(`None` is falsy in Python). -/
def blocked_in_force (e : OTP) (now : Nat) : Bool :=
  e.is_blocked && (match e.blocked_until with
    | some t => decide (t > now)
    | none => false)

/-- Expiry and code checks of `OTPService.verify_otp` (the part after the block
handling), run on entry `e1` against table `db1`. -/
def verify_otp_checks (db1 : List OTP) (now : Nat) (otp_code : String)
    (e1 : OTP) : (Bool × String) × List OTP :=
  if e1.expires_at < now then
    ((false, ERROR_MESSAGES "OTP_EXPIRED"), db1.erase e1)
  else if e1.otp_code ≠ otp_code then
    let e2 :=
      if e1.attempts + 1 ≥ MAX_ATTEMPTS then
        { e1 with attempts := e1.attempts + 1, is_blocked := true,
                  blocked_until := some (now + BLOCK_MINUTES) }
      else { e1 with attempts := e1.attempts + 1 }
    ((false, ERROR_MESSAGES "INCORRECT_OTP"), replaceRec db1 e1 e2)
  else
    ((true, ""), db1)

/-- `OTPService.verify_otp`. Returns the `(is_valid, error_message)` pair of the
source together with the table after the call's writes. -/
def verify_otp (db : List OTP) (now : Nat) (phone otp_code : String) :
    (Bool × String) × List OTP :=
  match get_otp db phone with
  | none => ((false, ERROR_MESSAGES "OTP_EXPIRED"), db)
  | some e0 =>
    if e0.is_blocked then
      if blocked_in_force e0 now then
        ((false, ERROR_MESSAGES "OTP_EXPIRED"), db)
      else
        -- a block whose `blocked_until` has passed self-heals in place,
        -- then the normal checks run on the healed entry
        let e1 := { e0 with is_blocked := false, attempts := 0,
                            blocked_until := none }
        verify_otp_checks (replaceRec db e0 e1) now otp_code e1
    else
      verify_otp_checks db now otp_code e0

/-- `OTPService.delete_otp`. -/
def delete_otp (db : List OTP) (phone : String) : List OTP :=
  db.filter (fun o => !(o.phone_number == phone))

/-! ## Credential authentication
(`apps/identity/account/models/user.py`,
`apps/identity/auth_app/services/auth_service.py`,
`apps/identity/auth_app/api/serializers.py` `LoginSerializer`,
`apps/identity/auth_app/api/views.py` `LoginView`) -/

/-- Security-relevant fields of `CustomUser`. `password` stands for the stored
credential; `check_password` is modelled as equality with it. -/
structure CustomUser where
  username : String
  email : String
  primary_mobile : String
  password : String
  failed_login_attempts : Nat
  locked_until : Option Nat
  is_2fa_enabled : Bool
deriving Repr, DecidableEq

/-- `CustomUser.check_password`. -/
def check_password (u : CustomUser) (pw : String) : Bool :=
  u.password == pw

/-- `CustomUser.is_locked`: `self.locked_until and self.locked_until > now`
(`None` is falsy). -/
def is_locked (u : CustomUser) (now : Nat) : Bool :=
  match u.locked_until with
  | some t => decide (t > now)
  | none => false

/-- `CustomUser.lock_account(minutes=30)` as applied to the stored row: it
assigns `locked_until` and saves with `update_fields=["locked_until"]`, so ONLY
`locked_until` is persisted — an in-memory bump of `failed_login_attempts` made
by the caller is not written. -/
def lock_account (u : CustomUser) (now : Nat) (minutes : Nat := 30) :
    CustomUser :=
  { u with locked_until := some (now + minutes) }

/-- `AuthService.get_user_by_identifier`: username, email or phone. -/
def get_user_by_identifier (db : List CustomUser) (identifier : String) :
    Option CustomUser :=
  db.find? (fun u =>
    u.username == identifier || u.email == identifier ||
      u.primary_mobile == identifier)

/-- `AuthService.authenticate_user`. Returns the authenticated user (or `None`)
together with the user table after the call's writes; each `save` persists only
its `update_fields`. -/
def authenticate_user (db : List CustomUser) (now : Nat)
    (identifier password : String) : Option CustomUser × List CustomUser :=
  match get_user_by_identifier db identifier with
  | none => (none, db)
  | some u =>
    if is_locked u now then
      (none, db)
    else if !check_password u password then
      if u.failed_login_attempts + 1 ≥ 5 then
        (none, replaceRec db u (lock_account u now 30))
      else
        (none,
          replaceRec db u
            { u with failed_login_attempts := u.failed_login_attempts + 1 })
    else if u.failed_login_attempts > 0 then
      let u' := { u with failed_login_attempts := 0, locked_until := none }
      (some u', replaceRec db u u')
    else
      (some u, db)

/-- Credential portion of `LoginSerializer.validate` (the Turnstile check is
skipped in `TEST_MODE` and the field-format checks live upstream): looks the
user up by identifier and compares the password. It performs NO lock check. -/
def login_serializer_validate (db : List CustomUser)
    (identifier password : String) : Option CustomUser :=
  match get_user_by_identifier db identifier with
  | none => none
  | some u => if check_password u password then some u else none

/-- Outcome of `LoginView.post`: HTTP 400 with the generic
`LOGIN_CREDENTIALS_INCORRECT` message, a 2FA challenge, or issued tokens. -/
inductive LoginResult where
  | badRequest (message : String)
  | twofaRequired (user : CustomUser)
  | tokensIssued (user : CustomUser)
deriving Repr, DecidableEq

/-- `LoginView.post`: on serializer failure it increments
`failed_login_attempts` (locking at 5) for whatever user the identifier
resolves to; on success it issues a 2FA challenge or tokens. -/
def login_view_post (db : List CustomUser) (now : Nat)
    (identifier password : String) : LoginResult × List CustomUser :=
  match login_serializer_validate db identifier password with
  | none =>
    let db' :=
      match get_user_by_identifier db identifier with
      | none => db
      | some u =>
        if u.failed_login_attempts + 1 ≥ 5 then
          replaceRec db u (lock_account u now 30)
        else
          replaceRec db u
            { u with failed_login_attempts := u.failed_login_attempts + 1 }
    (.badRequest (ERROR_MESSAGES "LOGIN_CREDENTIALS_INCORRECT"), db')
  | some u =>
    if u.is_2fa_enabled then (.twofaRequired u, db)
    else (.tokensIssued u, db)

/-! ## Token service (`apps/identity/auth_app/services/token_service.py`,
`SIMPLE_JWT` in `config/settings/base.py`) -/

/-- Payload of a refresh token (`rest_framework_simplejwt` `RefreshToken`):
unique token id, subject and expiry (minutes). -/
structure RefreshTokenRec where
  jti : Nat
  user_id : Nat
  exp : Nat
deriving Repr, DecidableEq

/-- Server-side token state: the `token_blacklist` table (by `jti`) and the
counter producing fresh `jti`s. -/
structure JwtState where
  blacklist : List Nat
  next_jti : Nat
deriving Repr, DecidableEq

/-- `SIMPLE_JWT["REFRESH_TOKEN_LIFETIME"]`: 7 days, in minutes. -/
def REFRESH_TOKEN_LIFETIME : Nat := 7 * 24 * 60

/-- `SIMPLE_JWT["ACCESS_TOKEN_LIFETIME"]`: 1 hour, in minutes. -/
def ACCESS_TOKEN_LIFETIME : Nat := 60

/-- Result of `TokenService.generate_tokens`: the dict
`{access, refresh, expires_in}`; the access token is represented by its expiry
claim. -/
structure TokenPair where
  access_exp : Nat
  refresh : RefreshTokenRec
  expires_in : Nat
deriving Repr, DecidableEq

/-- `TokenService.generate_tokens`: mints a fresh refresh token
(`RefreshToken.for_user`) and its access token; with `remember_me` the access
token's own expiry claim is extended to 14 days. -/
def generate_tokens (st : JwtState) (now : Nat) (user_id : Nat)
    (remember_me : Bool := false) : TokenPair × JwtState :=
  let refresh : RefreshTokenRec :=
    { jti := st.next_jti, user_id := user_id,
      exp := now + REFRESH_TOKEN_LIFETIME }
  let access_exp := if remember_me then now + 14 * 24 * 60
    else now + ACCESS_TOKEN_LIFETIME
  ({ access_exp := access_exp, refresh := refresh, expires_in := 3600 },
    { st with next_jti := st.next_jti + 1 })

/-- Validation performed by the `RefreshToken(token_str)` constructor: signature
(implicit in the typed value), expiry, and — since
`rest_framework_simplejwt.token_blacklist` is installed — a blacklist lookup. -/
def refresh_token_valid (st : JwtState) (now : Nat) (tok : RefreshTokenRec) :
    Bool :=
  decide (now < tok.exp) && !(st.blacklist.contains tok.jti)

/-- `TokenService.refresh_access_token`: builds `RefreshToken(refresh_token_str)`
and returns `{access, expires_in}`. It neither rotates the refresh token nor
blacklists it — the state is returned unchanged on success. -/
def refresh_access_token (st : JwtState) (now : Nat) (tok : RefreshTokenRec) :
    Except String (Nat × Nat) × JwtState :=
  if refresh_token_valid st now tok then
    ((Except.ok (now + ACCESS_TOKEN_LIFETIME, 3600)), st)
  else
    (Except.error "TokenError", st)

/-- `TokenService.blacklist_token` (logout): validates the token and adds its
`jti` to the blacklist. -/
def blacklist_token (st : JwtState) (now : Nat) (tok : RefreshTokenRec) :
    Bool × JwtState :=
  if refresh_token_valid st now tok then
    (true, { st with blacklist := tok.jti :: st.blacklist })
  else
    (false, st)

/-! ## Access control (`apps/access_control/models.py`, the services under
`apps/access_control/services/`, and `apps/access_control/permissions/IsAdminUser.py`)

The soft-delete fields `is_deleted`/`deleted_at` come from `TimeStampedModel`
(`apps/core/models.py`, referenced by every model but not under `src/`); the
services filter on `is_deleted` throughout, which fixes its meaning. Companies
and users are referred to by numeric ids. -/

/-- Row of `Role` (`role` is the name field; `company = none` means system
role). -/
structure Role where
  rid : Nat
  company : Option Nat
  role : String
  is_deleted : Bool
deriving Repr, DecidableEq

/-- Row of `UserCompany`. -/
structure UserCompany where
  ucid : Nat
  user : Nat
  company : Nat
  is_primary_company : Bool
  is_active : Bool
  is_deleted : Bool
deriving Repr, DecidableEq

/-- Row of `UserCompanyRole`. -/
structure UserCompanyRole where
  ucrid : Nat
  user_company : Nat
  role : Nat
  is_deleted : Bool
deriving Repr, DecidableEq

/-- Invitation status (`Invitation.STATUS_CHOICES`). -/
inductive InvStatus where
  | pending
  | accepted
  | expired
  | revoked
deriving Repr, DecidableEq

/-- Status value as stored (`"pending"` etc.), used in error messages. -/
def InvStatus.asString : InvStatus → String
  | .pending => "pending"
  | .accepted => "accepted"
  | .expired => "expired"
  | .revoked => "revoked"

/-- Row of `Invitation` (role by foreign key `rid`). -/
structure Invitation where
  iid : Nat
  company : Nat
  email : String
  role : Nat
  token : String
  status : InvStatus
  expires_at : Nat
  invited_by : Option Nat
  accepted_by : Option Nat
deriving Repr, DecidableEq

/-- The access-control tables touched by the invitation/role services and the
admin check, plus a counter for fresh primary keys. -/
structure AccessDB where
  invitations : List Invitation
  user_companies : List UserCompany
  user_company_roles : List UserCompanyRole
  roles : List Role
  next_id : Nat
deriving Repr, DecidableEq

/-- Save an `Invitation` row back by primary key. -/
def set_invitation (db : AccessDB) (inv : Invitation) : AccessDB :=
  { db with invitations :=
      db.invitations.map (fun i => if i.iid == inv.iid then inv else i) }

/-- Save a `UserCompany` row back by primary key. -/
def set_user_company (db : AccessDB) (uc : UserCompany) : AccessDB :=
  { db with user_companies :=
      db.user_companies.map (fun x => if x.ucid == uc.ucid then uc else x) }

/-- Save a `UserCompanyRole` row back by primary key. -/
def set_user_company_role (db : AccessDB) (ucr : UserCompanyRole) : AccessDB :=
  { db with user_company_roles :=
      db.user_company_roles.map (fun x =>
        if x.ucrid == ucr.ucrid then ucr else x) }

/-- `Invitation.default_expiry()`: now + 7 days (minutes). -/
def default_expiry (now : Nat) : Nat := now + 7 * 24 * 60

/-- `InvitationService.create_invitation`. The role instance is passed in as in
the source; the token is a parameter (random `secrets.token_urlsafe(32)` when
the caller omits it). Raising `BusinessException` is modelled by
`Except.error` with the exception's message; no write happens in that case.
Note the pending-duplicate check compares the stored emails with the `email`
argument AS PASSED, while the created row stores `email.lower().strip()`. -/
def create_invitation (db : AccessDB) (now : Nat) (company : Nat)
    (email : String) (role : Role) (invited_by : Nat)
    (expires_at : Option Nat) (token : String) :
    Except String (Invitation × AccessDB) :=
  if role.company ≠ none ∧ role.company ≠ some company then
    Except.error "Selected role does not belong to the target company."
  else if db.invitations.any (fun i =>
      i.email == email && i.company == company && i.status == InvStatus.pending) then
    Except.error "There is already a pending invitation for this email and company."
  else
    let inv : Invitation :=
      { iid := db.next_id, company := company, email := py_strip (py_lower email),
        role := role.rid, token := token, status := InvStatus.pending,
        expires_at := expires_at.getD (default_expiry now),
        invited_by := some invited_by, accepted_by := none }
    Except.ok (inv,
      { db with invitations := inv :: db.invitations,
                next_id := db.next_id + 1 })

/-- `UserCompanyService.associate_user_with_company`:
`get_or_create(user=…, company=…)` keyed on the unique `(user, company)` pair
(soft-deleted rows included), reactivating a soft-deleted row; an existing
non-deleted row is returned untouched, whatever its `is_active` flag. -/
def associate_user_with_company (db : AccessDB) (user company : Nat)
    (is_primary : Bool := false) : UserCompany × AccessDB :=
  match db.user_companies.find? (fun uc =>
      uc.user == user && uc.company == company) with
  | none =>
    let uc : UserCompany :=
      { ucid := db.next_id, user := user, company := company,
        is_primary_company := is_primary, is_active := true,
        is_deleted := false }
    (uc, { db with user_companies := uc :: db.user_companies,
                   next_id := db.next_id + 1 })
  | some uc =>
    if uc.is_deleted then
      let uc' := { uc with is_deleted := false, is_active := true }
      (uc', set_user_company db uc')
    else
      (uc, db)

/-- `UserCompanyRoleService.assign_role_to_user`: validates the role's tenant,
then `get_or_create` on the unique `(user_company, role)` pair, un-deleting a
soft-deleted assignment. -/
def assign_role_to_user (db : AccessDB) (uc : UserCompany) (role : Role) :
    Except String (UserCompanyRole × AccessDB) :=
  if role.company ≠ none ∧ role.company ≠ some uc.company then
    Except.error "Role does not belong to the user's company."
  else
    match db.user_company_roles.find? (fun x =>
        x.user_company == uc.ucid && x.role == role.rid) with
    | none =>
      let ucr : UserCompanyRole :=
        { ucrid := db.next_id, user_company := uc.ucid, role := role.rid,
          is_deleted := false }
      Except.ok (ucr,
        { db with user_company_roles := ucr :: db.user_company_roles,
                  next_id := db.next_id + 1 })
    | some ucr =>
      if ucr.is_deleted then
        let ucr' := { ucr with is_deleted := false }
        Except.ok (ucr', set_user_company_role db ucr')
      else
        Except.ok (ucr, db)

/-- `UserCompanyRoleService.remove_role_from_user`: soft delete. -/
def remove_role_from_user (db : AccessDB) (ucr : UserCompanyRole) : AccessDB :=
  set_user_company_role db { ucr with is_deleted := true }

/-- The user accepting an invitation (id and account email). -/
structure UserRef where
  uid : Nat
  email : String
deriving Repr, DecidableEq

/-- `InvitationService.accept_invitation`. Returns the raised message or the
`(UserCompany, UserCompanyRole)` pair, TOGETHER with the tables after the
call's writes — there is no transaction in the source, so writes made before a
failure persist. Django's `invitation.role` FK access is modelled by a lookup
in the roles table (a dangling FK cannot occur under the DB constraint and maps
to an error here). -/
def accept_invitation (db : AccessDB) (now : Nat) (token : String)
    (user : UserRef) :
    Except String (UserCompany × UserCompanyRole) × AccessDB :=
  match db.invitations.find? (fun i =>
      i.token == token && i.status == InvStatus.pending) with
  | none => (Except.error "Invalid or expired invitation token.", db)
  | some inv =>
    if inv.expires_at < now then
      -- `mark_expired` transitions the pending row before the raise
      (Except.error "Invitation has expired.",
        set_invitation db { inv with status := InvStatus.expired })
    else if py_lower user.email ≠ py_lower inv.email then
      (Except.error "Invitation email does not match your account email.", db)
    else
      match db.roles.find? (fun r => r.rid == inv.role) with
      | none => (Except.error "Invitation role not found.", db)
      | some role =>
        let (uc, db1) := associate_user_with_company db user.uid inv.company
        match assign_role_to_user db1 uc role with
        | Except.error e => (Except.error e, db1)
        | Except.ok (ucr, db2) =>
          let db3 := set_invitation db2
            { inv with status := InvStatus.accepted,
                       accepted_by := some user.uid }
          (Except.ok (uc, ucr), db3)

/-- `InvitationService.revoke_invitation`. -/
def revoke_invitation (db : AccessDB) (inv : Invitation) :
    Except String AccessDB :=
  if inv.status ≠ InvStatus.pending then
    Except.error
      ("Cannot revoke invitation with status '" ++ inv.status.asString ++ "'.")
  else
    Except.ok (set_invitation db { inv with status := InvStatus.revoked })

/-- `InvitationService.resend_invitation`: extends the expiry. -/
def resend_invitation (db : AccessDB) (now : Nat) (inv : Invitation) :
    Except String AccessDB :=
  if inv.status ≠ InvStatus.pending then
    Except.error
      ("Cannot resend invitation with status '" ++ inv.status.asString ++ "'.")
  else
    Except.ok (set_invitation db { inv with expires_at := default_expiry now })

/-- Core query of `IsAdminUser.has_permission`: an existing `UserCompanyRole`
whose `UserCompany` is the user's active, non-deleted edge to the company and
whose `Role` is a non-deleted role named "admin" (case-insensitive `iexact`). -/
def admin_row (db : AccessDB) (user company : Nat) (ucr : UserCompanyRole) :
    Bool :=
  !ucr.is_deleted &&
  db.user_companies.any (fun uc =>
    uc.ucid == ucr.user_company && uc.user == user &&
      uc.company == company && uc.is_active && !uc.is_deleted) &&
  db.roles.any (fun r =>
    r.rid == ucr.role && py_lower r.role == "admin" && !r.is_deleted)

/-- Core query of `IsAdminUser.has_permission`: see `admin_row`. -/
def is_admin (db : AccessDB) (user company : Nat) : Bool :=
  db.user_company_roles.any (admin_row db user company)

/-! ## Concrete sample data used by witnesses and counterexamples -/

/-- A user whose account is locked until minute 1000 and whose password is
`"Passw0rd!"`. -/
def lockedUser : CustomUser :=
  { username := "alice", email := "alice@example.com",
    primary_mobile := "+201000000001", password := "Passw0rd!",
    failed_login_attempts := 5, locked_until := some 1000,
    is_2fa_enabled := false }

/-- An unlocked user with password `"Hunter2abc!"`. -/
def freshUser : CustomUser :=
  { username := "bob", email := "bob@example.com",
    primary_mobile := "+201000000002", password := "Hunter2abc!",
    failed_login_attempts := 0, locked_until := none,
    is_2fa_enabled := false }

/-- A live, unblocked OTP record for phone `"+20100"`, code `"123456"`,
expiring at minute 120. -/
def otpSample : OTP :=
  { phone_number := "+20100", otp_code := "123456", expires_at := 120,
    attempts := 0, is_blocked := false, blocked_until := none }

/-- An OTP record blocked until minute 50. -/
def otpBlocked : OTP :=
  { phone_number := "+20100", otp_code := "123456", expires_at := 120,
    attempts := 3, is_blocked := true, blocked_until := some 50 }

/-- Company 1's role "admin". -/
def adminRole : Role := { rid := 1, company := some 1, role := "admin",
                          is_deleted := false }

/-- The system role "employee" (no company). -/
def employeeRole : Role := { rid := 2, company := none, role := "employee",
                             is_deleted := false }

/-- User 1's active association with company 1. -/
def ucSample : UserCompany :=
  { ucid := 1, user := 1, company := 1, is_primary_company := false,
    is_active := true, is_deleted := false }

/-- User 1's grant of the admin role on `ucSample`. -/
def ucrSample : UserCompanyRole :=
  { ucrid := 1, user_company := 1, role := 1, is_deleted := false }

/-- Access-control state of the spec's "Acme" scenario. -/
def acmeDB : AccessDB :=
  { invitations := [], user_companies := [ucSample],
    user_company_roles := [ucrSample], roles := [adminRole, employeeRole],
    next_id := 3 }

/-- A pending invitation of `"a@b.com"` to company 1 for role 1, expiring at
minute 10080. -/
def pendingInv : Invitation :=
  { iid := 1, company := 1, email := "a@b.com", role := 1, token := "tok1",
    status := InvStatus.pending, expires_at := 10080, invited_by := some 9,
    accepted_by := none }

/-- The invitation row produced by `create_invitation` on a store whose id
counter stands at 2, for `"A@B.com"`/company 1/role 1 (email stored
lower-cased). -/
def pendingInv2 : Invitation :=
  { iid := 2, company := 1, email := "a@b.com", role := 1, token := "tok1",
    status := InvStatus.pending, expires_at := 10080, invited_by := some 9,
    accepted_by := none }

/-- Store holding exactly the pending invitation `pendingInv`. -/
def invC3DB : AccessDB :=
  { invitations := [pendingInv], user_companies := [], user_company_roles := [],
    roles := [adminRole], next_id := 5 }

/-- User 3's association with company 1: INACTIVE but not soft-deleted. -/
def ucInactive : UserCompany :=
  { ucid := 7, user := 3, company := 1, is_primary_company := false,
    is_active := false, is_deleted := false }

/-- Store with the pending invitation `pendingInv` and the inactive
association `ucInactive` for the invited user. -/
def inactiveAcceptDB : AccessDB :=
  { invitations := [pendingInv], user_companies := [ucInactive],
    user_company_roles := [], roles := [adminRole], next_id := 8 }

/-! # Theorems -/

theorem find?_replaceRec {α : Type} [DecidableEq α] (db : List α) (q : α → Bool)
    (r r' : α) (h : db.find? q = some r) (h' : q r' = true) :
    (replaceRec db r r').find? q = some r' := by
  induction db with
  | nil => simp [List.find?] at h
  | cons x xs ih =>
    by_cases hx : q x = true
    · rw [List.find?_cons_of_pos _ hx] at h
      injection h with h
      subst h
      simp [replaceRec, List.find?_cons_of_pos _ h']
    · rw [List.find?_cons_of_neg _ hx] at h
      have hq : q r = true := List.find?_some h
      have hne : x ≠ r := fun hcontra => hx (hcontra ▸ hq)
      simp only [replaceRec, beq_iff_eq, if_neg hne]
      rw [List.find?_cons_of_neg _ hx]
      exact ih h

/-- Claim C1: the spec requires that during the 30-minute lock every login
attempt — even with correct credentials — is rejected. The actual login path
(`LoginSerializer.validate` + `LoginView.post`) never consults
`CustomUser.is_locked` (the enforcing `AuthService.authenticate_user` has no
caller), so a locked account with the correct password is issued tokens while
the lock is in force: at minute 500, with `locked_until = 1000`, login
succeeds. -/
theorem login_view_ignores_lock :
    is_locked lockedUser 500 = true ∧
    login_view_post [lockedUser] 500 "alice" "Passw0rd!" =
      (LoginResult.tokensIssued lockedUser, [lockedUser]) := by
  constructor
  · decide
  · decide

/-- Claim C2: the spec requires refresh rotation — replaying a refresh token
after one successful refresh must fail. `TokenService.refresh_access_token`
neither rotates nor blacklists (despite `ROTATE_REFRESH_TOKENS`/
`BLACKLIST_AFTER_ROTATION` being set): after `issue` and one successful
refresh, replaying the same refresh token succeeds again. -/
theorem refresh_token_replay_succeeds :
    (generate_tokens { blacklist := [], next_jti := 0 } 0 7).1.refresh =
      { jti := 0, user_id := 7, exp := REFRESH_TOKEN_LIFETIME } ∧
    refresh_access_token (generate_tokens { blacklist := [], next_jti := 0 } 0 7).2
        100 { jti := 0, user_id := 7, exp := REFRESH_TOKEN_LIFETIME } =
      (Except.ok (100 + ACCESS_TOKEN_LIFETIME, 3600),
        (generate_tokens { blacklist := [], next_jti := 0 } 0 7).2) ∧
    isOkE (refresh_access_token
        (refresh_access_token (generate_tokens { blacklist := [], next_jti := 0 } 0 7).2
          100 { jti := 0, user_id := 7, exp := REFRESH_TOKEN_LIFETIME }).2
        200 { jti := 0, user_id := 7, exp := REFRESH_TOKEN_LIFETIME }).1 = true := by
  refine ⟨by decide, by rfl, by rfl⟩

/-- Claim C7 (counterexample): the claim asserts the rejection of an attempt on
a locked account is a distinct "locked" outcome that callers can distinguish
from an invalid-credentials outcome. In `AuthService.authenticate_user` both
paths return the same `None`: at minute 500 a locked user with the CORRECT
password and an unlocked user with a WRONG password produce identical
outcomes. -/
theorem locked_outcome_indistinguishable :
    (authenticate_user [lockedUser] 500 "alice" "Passw0rd!").1 = none ∧
    (authenticate_user [freshUser] 500 "bob" "WrongPw123").1 = none ∧
    (authenticate_user [lockedUser] 500 "alice" "Passw0rd!").1 =
      (authenticate_user [freshUser] 500 "bob" "WrongPw123").1 := by
  refine ⟨by decide, by decide, by decide⟩

/-- Claim C7 (amended): an authentication attempt on a locked account is
rejected by `AuthService.authenticate_user` without incrementing
`failed_login_attempts` (the user table is returned unchanged), but the
rejection is the same `None` as an invalid-credentials rejection — there is no
distinct "locked" outcome for callers to branch on. -/
theorem authenticate_locked_rejects_without_increment
    (db : List CustomUser) (now : Nat) (identifier password : String)
    (u : CustomUser) (hfind : get_user_by_identifier db identifier = some u)
    (hlock : is_locked u now = true) :
    authenticate_user db now identifier password = (none, db) := by
  unfold authenticate_user
  rw [hfind]
  simp [hlock]

/-- Witness for `authenticate_locked_rejects_without_increment` at the locked
sample user. -/
theorem authenticate_locked_witness :
    authenticate_user [lockedUser] 500 "alice" "Passw0rd!" =
      (none, [lockedUser]) :=
  authenticate_locked_rejects_without_increment [lockedUser] 500 "alice"
    "Passw0rd!" lockedUser (by decide) (by decide)

/-- Claim C4: the spec requires `accept` to be atomic — on any failure no
partial application may persist. `InvitationService.accept_invitation` runs
without a transaction: when role assignment fails after the association step
(here: invitation 1 of company 1 references role 5 whose `company` is 2, as
happens when a role is re-parented after the invitation was created), the
freshly created `UserCompany` row persists while no role is granted and the
invitation stays `pending`. -/
theorem accept_invitation_partial_application :
    accept_invitation
        { invitations := [{ iid := 1, company := 1, email := "x@y.com",
                            role := 5, token := "tk",
                            status := InvStatus.pending, expires_at := 100,
                            invited_by := some 9, accepted_by := none }],
          user_companies := [], user_company_roles := [],
          roles := [{ rid := 5, company := some 2, role := "manager",
                      is_deleted := false }],
          next_id := 10 }
        50 "tk" { uid := 3, email := "X@Y.com" } =
      (Except.error "Role does not belong to the user's company.",
        { invitations := [{ iid := 1, company := 1, email := "x@y.com",
                            role := 5, token := "tk",
                            status := InvStatus.pending, expires_at := 100,
                            invited_by := some 9, accepted_by := none }],
          user_companies := [{ ucid := 10, user := 3, company := 1,
                               is_primary_company := false, is_active := true,
                               is_deleted := false }],
          user_company_roles := [],
          roles := [{ rid := 5, company := some 2, role := "manager",
                      is_deleted := false }],
          next_id := 11 }) := by
  rfl

/-- Claim C3 (counterexample): the claim says `create` raises a ConflictError
for a duplicate pending invitation regardless of the email's letter case. The
pending-duplicate check in `InvitationService.create_invitation` compares
stored (lower-cased) emails against the email AS PASSED: creating twice for
`"A@B.com"`/company 1 succeeds both times, leaving TWO pending invitations for
`("a@b.com", 1)`. -/
theorem create_invitation_case_bypass :
    create_invitation
        { invitations := [], user_companies := [], user_company_roles := [],
          roles := [adminRole], next_id := 2 }
        0 1 "A@B.com" adminRole 9 none "tok1" =
      Except.ok (pendingInv2,
        { invitations := [pendingInv2], user_companies := [],
          user_company_roles := [], roles := [adminRole], next_id := 3 }) ∧
    create_invitation
        { invitations := [pendingInv2], user_companies := [],
          user_company_roles := [], roles := [adminRole], next_id := 3 }
        0 1 "A@B.com" adminRole 9 none "tok2" =
      Except.ok ({ pendingInv2 with iid := 3, token := "tok2" },
        { invitations := [{ pendingInv2 with iid := 3, token := "tok2" },
                          pendingInv2],
          user_companies := [], user_company_roles := [],
          roles := [adminRole], next_id := 4 }) ∧
    (List.filter (fun i => i.email == "a@b.com" && i.company == 1 &&
        i.status == InvStatus.pending)
      [{ pendingInv2 with iid := 3, token := "tok2" }, pendingInv2]).length
      = 2 := by
  refine ⟨by rfl, by rfl, by decide⟩

/-- Claim C3 (amended): `create_invitation` fails with the duplicate-pending
ConflictError exactly when a pending invitation exists whose STORED email
string equals the email as passed (an exact, case-sensitive match — stored
emails are lower-cased, so a differently-cased input bypasses the check); and
once the pending invitation is revoked, a create for the same pair succeeds. -/
theorem create_invitation_exact_conflict_and_revoke
    (db : AccessDB) (now company : Nat) (email : String) (role : Role)
    (invited_by : Nat) (expires_at : Option Nat) (token : String)
    (inv0 : Invitation)
    (hrole : role.company = none ∨ role.company = some company)
    (hmem : inv0 ∈ db.invitations)
    (hemail : inv0.email = email) (hco : inv0.company = company)
    (hst : inv0.status = InvStatus.pending)
    (huniq : ∀ i ∈ db.invitations, i.email = email → i.company = company →
      i.status = InvStatus.pending → i.iid = inv0.iid) :
    create_invitation db now company email role invited_by expires_at token =
      Except.error
        "There is already a pending invitation for this email and company." ∧
    ∃ db', revoke_invitation db inv0 = Except.ok db' ∧
      isOkE (create_invitation db' now company email role invited_by
        expires_at token) = true := by
  have hguard : ¬(role.company ≠ none ∧ role.company ≠ some company) := by
    rcases hrole with h | h <;> simp [h]
  have hany : db.invitations.any (fun i =>
      i.email == email && i.company == company &&
        i.status == InvStatus.pending) = true := by
    rw [List.any_eq_true]
    exact ⟨inv0, hmem, by simp [hemail, hco, hst]⟩
  constructor
  · unfold create_invitation
    rw [if_neg hguard, hany]
    simp
  · refine ⟨set_invitation db { inv0 with status := InvStatus.revoked }, ?_, ?_⟩
    · unfold revoke_invitation
      rw [hst]
      simp
    · have hnone : (set_invitation db
          { inv0 with status := InvStatus.revoked }).invitations.any (fun i =>
            i.email == email && i.company == company &&
              i.status == InvStatus.pending) = false := by
        rw [Bool.eq_false_iff]
        intro hcontra
        rw [List.any_eq_true] at hcontra
        obtain ⟨i, hi, hpred⟩ := hcontra
        simp only [set_invitation, List.mem_map] at hi
        obtain ⟨x, hx, hfx⟩ := hi
        by_cases hid : (x.iid == inv0.iid) = true
        · rw [if_pos hid] at hfx
          subst hfx
          simp at hpred
        · rw [if_neg hid] at hfx
          subst hfx
          simp only [Bool.and_eq_true, beq_iff_eq] at hpred
          exact hid (by simp [huniq x hx hpred.1.1 hpred.1.2 hpred.2])
      unfold create_invitation
      rw [if_neg hguard, hnone]
      simp [isOkE]

/-- Witness for `create_invitation_exact_conflict_and_revoke` on the store
holding the single pending invitation `pendingInv`, with the email passed in
its stored (lower-case) form. -/
theorem create_invitation_conflict_witness :
    create_invitation invC3DB 0 1 "a@b.com" adminRole 9 none "tokX" =
      Except.error
        "There is already a pending invitation for this email and company." ∧
    ∃ db', revoke_invitation invC3DB pendingInv = Except.ok db' ∧
      isOkE (create_invitation db' 0 1 "a@b.com" adminRole 9 none "tokX")
        = true :=
  create_invitation_exact_conflict_and_revoke invC3DB 0 1 "a@b.com" adminRole
    9 none "tokX" pendingInv (Or.inr rfl) (by decide) rfl rfl rfl (by decide)

/-- Claim C6: `is_admin` holds exactly when some `UserCompanyRole` row links an
active, non-deleted `UserCompany` of the user for the company to a non-deleted
role named "admin" (case-insensitively); and soft-deleting the (only) granting
`UserCompanyRole` turns the check false. -/
theorem is_admin_spec (db : AccessDB) (u c : Nat) (ucr0 : UserCompanyRole)
    (huniq : ∀ x ∈ db.user_company_roles,
      admin_row db u c x = true → x.ucrid = ucr0.ucrid) :
    (is_admin db u c = true ↔
      ∃ ucr ∈ db.user_company_roles, ucr.is_deleted = false ∧
        (∃ uc ∈ db.user_companies, uc.ucid = ucr.user_company ∧ uc.user = u ∧
          uc.company = c ∧ uc.is_active = true ∧ uc.is_deleted = false) ∧
        (∃ r ∈ db.roles, r.rid = ucr.role ∧ py_lower r.role = "admin" ∧
          r.is_deleted = false)) ∧
    is_admin (remove_role_from_user db ucr0) u c = false := by
  constructor
  · unfold is_admin admin_row
    rw [List.any_eq_true]
    constructor
    · rintro ⟨x, hx, hcond⟩
      simp only [Bool.and_eq_true, Bool.not_eq_true', List.any_eq_true,
        beq_iff_eq] at hcond
      obtain ⟨⟨hdel, uc, hucmem, huc⟩, r, hrmem, hr⟩ := hcond
      exact ⟨x, hx, hdel,
        ⟨uc, hucmem, huc.1.1.1.1, huc.1.1.1.2, huc.1.1.2, huc.1.2, huc.2⟩,
        ⟨r, hrmem, hr.1.1, hr.1.2, hr.2⟩⟩
    · rintro ⟨x, hx, hdel, ⟨uc, hucmem, huc1, huc2, huc3, huc4, huc5⟩,
        r, hrmem, hr1, hr2, hr3⟩
      refine ⟨x, hx, ?_⟩
      simp only [Bool.and_eq_true, Bool.not_eq_true', List.any_eq_true,
        beq_iff_eq]
      exact ⟨⟨hdel, uc, hucmem, ⟨⟨⟨⟨huc1, huc2⟩, huc3⟩, huc4⟩, huc5⟩⟩,
        r, hrmem, ⟨⟨hr1, hr2⟩, hr3⟩⟩
  · rw [Bool.eq_false_iff]
    intro hcontra
    unfold is_admin at hcontra
    rw [List.any_eq_true] at hcontra
    obtain ⟨x', hx', hcond⟩ := hcontra
    have hrowEq : ∀ y, admin_row (remove_role_from_user db ucr0) u c y =
        admin_row db u c y := fun _ => rfl
    rw [hrowEq] at hcond
    have hx'' : x' ∈ db.user_company_roles.map (fun x =>
        if x.ucrid == UserCompanyRole.ucrid { ucr0 with is_deleted := true }
        then { ucr0 with is_deleted := true } else x) := hx'
    rw [List.mem_map] at hx''
    obtain ⟨x, hx, hfx⟩ := hx''
    by_cases hid :
        (x.ucrid == UserCompanyRole.ucrid { ucr0 with is_deleted := true })
          = true
    · rw [if_pos hid] at hfx
      subst hfx
      simp [admin_row] at hcond
    · rw [if_neg hid] at hfx
      subst hfx
      exact hid (by simp [huniq x hx hcond])

/-- Witness for `is_admin_spec` on the spec's "Acme" scenario: user 1 is admin
of company 1 through `ucrSample`; soft-deleting that grant flips the check to
false. -/
theorem is_admin_witness :
    is_admin acmeDB 1 1 = true ∧
    is_admin (remove_role_from_user acmeDB ucrSample) 1 1 = false :=
  ⟨by decide, (is_admin_spec acmeDB 1 1 ucrSample (by decide)).2⟩

/-- Claim C5: starting from a live, unblocked, un-expired OTP record with 0
attempts, each of three wrong `verify` calls returns the `INCORRECT_OTP`
reason and bumps the counter; exactly the third sets the record blocked until
15 minutes after that call; a `verify` during the block — even with the
CORRECT code — fails with the same `OTP_EXPIRED` reason that a missing record
produces, so the caller cannot tell the cases apart. -/
theorem otp_three_wrong_attempts_block
    (db : List OTP) (t1 t2 t3 t4 : Nat) (p w1 w2 w3 : String) (r : OTP)
    (h0 : get_otp db p = some r)
    (hb : r.is_blocked = false) (ha : r.attempts = 0)
    (he1 : ¬ r.expires_at < t1) (he2 : ¬ r.expires_at < t2)
    (he3 : ¬ r.expires_at < t3)
    (hw1 : r.otp_code ≠ w1) (hw2 : r.otp_code ≠ w2) (hw3 : r.otp_code ≠ w3)
    (ht4 : t4 < t3 + BLOCK_MINUTES) :
    verify_otp db t1 p w1 =
      ((false, ERROR_MESSAGES "INCORRECT_OTP"),
        replaceRec db r { r with attempts := 1 }) ∧
    verify_otp (replaceRec db r { r with attempts := 1 }) t2 p w2 =
      ((false, ERROR_MESSAGES "INCORRECT_OTP"),
        replaceRec (replaceRec db r { r with attempts := 1 })
          { r with attempts := 1 } { r with attempts := 2 }) ∧
    verify_otp (replaceRec (replaceRec db r { r with attempts := 1 })
        { r with attempts := 1 } { r with attempts := 2 }) t3 p w3 =
      ((false, ERROR_MESSAGES "INCORRECT_OTP"),
        replaceRec (replaceRec (replaceRec db r { r with attempts := 1 })
            { r with attempts := 1 } { r with attempts := 2 })
          { r with attempts := 2 }
          { r with attempts := 3, is_blocked := true,
                   blocked_until := some (t3 + BLOCK_MINUTES) }) ∧
    get_otp (replaceRec (replaceRec (replaceRec db r { r with attempts := 1 })
          { r with attempts := 1 } { r with attempts := 2 })
        { r with attempts := 2 }
        { r with attempts := 3, is_blocked := true,
                 blocked_until := some (t3 + BLOCK_MINUTES) }) p =
      some { r with attempts := 3, is_blocked := true,
                    blocked_until := some (t3 + BLOCK_MINUTES) } ∧
    verify_otp (replaceRec (replaceRec (replaceRec db r
            { r with attempts := 1 })
          { r with attempts := 1 } { r with attempts := 2 })
        { r with attempts := 2 }
        { r with attempts := 3, is_blocked := true,
                 blocked_until := some (t3 + BLOCK_MINUTES) }) t4 p r.otp_code =
      ((false, ERROR_MESSAGES "OTP_EXPIRED"),
        replaceRec (replaceRec (replaceRec db r { r with attempts := 1 })
            { r with attempts := 1 } { r with attempts := 2 })
          { r with attempts := 2 }
          { r with attempts := 3, is_blocked := true,
                   blocked_until := some (t3 + BLOCK_MINUTES) }) ∧
    verify_otp [] t4 p r.otp_code =
      ((false, ERROR_MESSAGES "OTP_EXPIRED"), []) := by
  obtain ⟨ph, code, exp, att, bl, bu⟩ := r
  dsimp only at hb ha he1 he2 he3 hw1 hw2 hw3 ⊢
  subst hb
  subst ha
  have h0' : db.find? (fun o => o.phone_number == p) =
      some ⟨ph, code, exp, 0, false, bu⟩ := h0
  have hrp : (ph == p) = true := by
    simpa using List.find?_some h0'
  have h1 : (replaceRec db ⟨ph, code, exp, 0, false, bu⟩
      ⟨ph, code, exp, 1, false, bu⟩).find? (fun o => o.phone_number == p) =
      some ⟨ph, code, exp, 1, false, bu⟩ :=
    find?_replaceRec db _ _ _ h0' hrp
  have h2 : (replaceRec (replaceRec db ⟨ph, code, exp, 0, false, bu⟩
      ⟨ph, code, exp, 1, false, bu⟩) ⟨ph, code, exp, 1, false, bu⟩
      ⟨ph, code, exp, 2, false, bu⟩).find? (fun o => o.phone_number == p) =
      some ⟨ph, code, exp, 2, false, bu⟩ :=
    find?_replaceRec _ _ _ _ h1 hrp
  have h3 : (replaceRec (replaceRec (replaceRec db
      ⟨ph, code, exp, 0, false, bu⟩ ⟨ph, code, exp, 1, false, bu⟩)
      ⟨ph, code, exp, 1, false, bu⟩ ⟨ph, code, exp, 2, false, bu⟩)
      ⟨ph, code, exp, 2, false, bu⟩
      ⟨ph, code, exp, 3, true, some (t3 + BLOCK_MINUTES)⟩).find?
      (fun o => o.phone_number == p) =
      some ⟨ph, code, exp, 3, true, some (t3 + BLOCK_MINUTES)⟩ :=
    find?_replaceRec _ _ _ _ h2 hrp
  have hg1 : get_otp (replaceRec db ⟨ph, code, exp, 0, false, bu⟩
      ⟨ph, code, exp, 1, false, bu⟩) p = some ⟨ph, code, exp, 1, false, bu⟩ :=
    h1
  have hg2 : get_otp (replaceRec (replaceRec db ⟨ph, code, exp, 0, false, bu⟩
      ⟨ph, code, exp, 1, false, bu⟩) ⟨ph, code, exp, 1, false, bu⟩
      ⟨ph, code, exp, 2, false, bu⟩) p = some ⟨ph, code, exp, 2, false, bu⟩ :=
    h2
  have hg3 : get_otp (replaceRec (replaceRec (replaceRec db
      ⟨ph, code, exp, 0, false, bu⟩ ⟨ph, code, exp, 1, false, bu⟩)
      ⟨ph, code, exp, 1, false, bu⟩ ⟨ph, code, exp, 2, false, bu⟩)
      ⟨ph, code, exp, 2, false, bu⟩
      ⟨ph, code, exp, 3, true, some (t3 + BLOCK_MINUTES)⟩) p =
      some ⟨ph, code, exp, 3, true, some (t3 + BLOCK_MINUTES)⟩ := h3
  refine ⟨?_, ?_, ?_, hg3, ?_, ?_⟩
  · simp [verify_otp, h0, verify_otp_checks, he1, hw1, MAX_ATTEMPTS]
  · simp [verify_otp, hg1, verify_otp_checks, he2, hw2, MAX_ATTEMPTS]
  · simp [verify_otp, hg2, verify_otp_checks, he3, hw3, MAX_ATTEMPTS,
      BLOCK_MINUTES]
  · simp [verify_otp, hg3, blocked_in_force, ht4]
  · simp [verify_otp, get_otp]

/-- Witness for `otp_three_wrong_attempts_block`: the sample record with code
`"123456"`, three wrong guesses at minutes 10, 11, 12 and a correct attempt at
minute 20 (inside the 15-minute block). -/
theorem otp_three_wrong_witness :
    verify_otp [otpSample] 10 "+20100" "000000" =
      ((false, ERROR_MESSAGES "INCORRECT_OTP"),
        replaceRec [otpSample] otpSample { otpSample with attempts := 1 }) ∧
    verify_otp (replaceRec [otpSample] otpSample
        { otpSample with attempts := 1 }) 11 "+20100" "000001" =
      ((false, ERROR_MESSAGES "INCORRECT_OTP"),
        replaceRec (replaceRec [otpSample] otpSample
            { otpSample with attempts := 1 })
          { otpSample with attempts := 1 } { otpSample with attempts := 2 }) ∧
    verify_otp (replaceRec (replaceRec [otpSample] otpSample
          { otpSample with attempts := 1 })
        { otpSample with attempts := 1 } { otpSample with attempts := 2 })
      12 "+20100" "000002" =
      ((false, ERROR_MESSAGES "INCORRECT_OTP"),
        replaceRec (replaceRec (replaceRec [otpSample] otpSample
              { otpSample with attempts := 1 })
            { otpSample with attempts := 1 } { otpSample with attempts := 2 })
          { otpSample with attempts := 2 }
          { otpSample with attempts := 3, is_blocked := true,
                           blocked_until := some (12 + BLOCK_MINUTES) }) ∧
    get_otp (replaceRec (replaceRec (replaceRec [otpSample] otpSample
            { otpSample with attempts := 1 })
          { otpSample with attempts := 1 } { otpSample with attempts := 2 })
        { otpSample with attempts := 2 }
        { otpSample with attempts := 3, is_blocked := true,
                         blocked_until := some (12 + BLOCK_MINUTES) })
      "+20100" =
      some { otpSample with attempts := 3, is_blocked := true,
                            blocked_until := some (12 + BLOCK_MINUTES) } ∧
    verify_otp (replaceRec (replaceRec (replaceRec [otpSample] otpSample
            { otpSample with attempts := 1 })
          { otpSample with attempts := 1 } { otpSample with attempts := 2 })
        { otpSample with attempts := 2 }
        { otpSample with attempts := 3, is_blocked := true,
                         blocked_until := some (12 + BLOCK_MINUTES) })
      20 "+20100" "123456" =
      ((false, ERROR_MESSAGES "OTP_EXPIRED"),
        replaceRec (replaceRec (replaceRec [otpSample] otpSample
              { otpSample with attempts := 1 })
            { otpSample with attempts := 1 } { otpSample with attempts := 2 })
          { otpSample with attempts := 2 }
          { otpSample with attempts := 3, is_blocked := true,
                           blocked_until := some (12 + BLOCK_MINUTES) }) ∧
    verify_otp [] 20 "+20100" "123456" =
      ((false, ERROR_MESSAGES "OTP_EXPIRED"), []) :=
  otp_three_wrong_attempts_block [otpSample] 10 11 12 20 "+20100"
    "000000" "000001" "000002" otpSample rfl rfl rfl (by decide) (by decide)
    (by decide) (by decide) (by decide) (by decide) (by decide)

/-- Claim C8: a `verify` call on a record that is blocked but whose
`blocked_until` has passed first self-heals the stored record (clears the
flag, resets attempts, clears `blocked_until`) and then performs the normal
expiry and code checks — the call behaves exactly like a call on the healed
store, with no external sweep involved. -/
theorem otp_block_self_heals
    (db : List OTP) (now : Nat) (p w : String) (r : OTP) (b : Nat)
    (h0 : get_otp db p = some r) (hb : r.is_blocked = true)
    (hbu : r.blocked_until = some b) (hpassed : ¬ b > now) :
    verify_otp db now p w =
      verify_otp_checks
        (replaceRec db r
          { r with is_blocked := false, attempts := 0, blocked_until := none })
        now w
        { r with is_blocked := false, attempts := 0,
                 blocked_until := none } ∧
    get_otp (replaceRec db r
        { r with is_blocked := false, attempts := 0, blocked_until := none })
      p = some { r with is_blocked := false, attempts := 0,
                        blocked_until := none } ∧
    verify_otp (replaceRec db r
        { r with is_blocked := false, attempts := 0, blocked_until := none })
      now p w = verify_otp db now p w := by
  obtain ⟨ph, code, exp, att, bl, bu⟩ := r
  dsimp only at hb hbu ⊢
  subst hb
  subst hbu
  have h0' : db.find? (fun o => o.phone_number == p) =
      some ⟨ph, code, exp, att, true, some b⟩ := h0
  have hrp : (ph == p) = true := by
    simpa using List.find?_some h0'
  have hhealed : get_otp (replaceRec db ⟨ph, code, exp, att, true, some b⟩
      ⟨ph, code, exp, 0, false, none⟩) p =
      some ⟨ph, code, exp, 0, false, none⟩ :=
    find?_replaceRec db _ _ _ h0' hrp
  have hfirst : verify_otp db now p w =
      verify_otp_checks (replaceRec db ⟨ph, code, exp, att, true, some b⟩
        ⟨ph, code, exp, 0, false, none⟩) now w
        ⟨ph, code, exp, 0, false, none⟩ := by
    simp [verify_otp, h0, blocked_in_force, hpassed]
  refine ⟨hfirst, hhealed, ?_⟩
  rw [hfirst]
  simp [verify_otp, hhealed]

/-- Witness for `otp_block_self_heals`: at minute 60 the sample record blocked
until minute 50 self-heals, and the call equals a call on the healed store. -/
theorem otp_self_heal_witness :
    verify_otp [otpBlocked] 60 "+20100" "123456" =
      verify_otp_checks
        (replaceRec [otpBlocked] otpBlocked
          { otpBlocked with is_blocked := false, attempts := 0,
                            blocked_until := none })
        60 "123456"
        { otpBlocked with is_blocked := false, attempts := 0,
                          blocked_until := none } ∧
    get_otp (replaceRec [otpBlocked] otpBlocked
        { otpBlocked with is_blocked := false, attempts := 0,
                          blocked_until := none }) "+20100" =
      some { otpBlocked with is_blocked := false, attempts := 0,
                             blocked_until := none } ∧
    verify_otp (replaceRec [otpBlocked] otpBlocked
        { otpBlocked with is_blocked := false, attempts := 0,
                          blocked_until := none }) 60 "+20100" "123456" =
      verify_otp [otpBlocked] 60 "+20100" "123456" :=
  otp_block_self_heals [otpBlocked] 60 "+20100" "123456" otpBlocked 50
    rfl rfl rfl (by decide)

/-- Claim C9: `create_otp` (the resend path) replaces whatever record a phone
number has — blocked or not — by a fresh one with `attempts = 0` and no block,
and that fresh code then verifies successfully within its window: requesting a
new OTP lifts a 15-minute block without waiting out `blocked_until`. -/
theorem create_otp_lifts_block
    (db : List OTP) (now t' : Nat) (p code : String)
    (hfresh : ¬ now + OTP_EXPIRY_MINUTES < t') :
    (create_otp db now p code).1 =
      { phone_number := p, otp_code := code,
        expires_at := now + OTP_EXPIRY_MINUTES, attempts := 0,
        is_blocked := false, blocked_until := none } ∧
    get_otp (create_otp db now p code).2 p =
      some (create_otp db now p code).1 ∧
    (∀ o ∈ (create_otp db now p code).2, o.phone_number = p →
      o = (create_otp db now p code).1) ∧
    verify_otp (create_otp db now p code).2 t' p code =
      ((true, ""), (create_otp db now p code).2) := by
  refine ⟨rfl, ?_, ?_, ?_⟩
  · simp [create_otp, get_otp, List.find?]
  · intro o ho hp
    simp only [create_otp, List.mem_cons] at ho
    rcases ho with ho | ho
    · simpa [create_otp] using ho
    · have := List.of_mem_filter ho
      simp [hp] at this
  · simp [verify_otp, get_otp, create_otp, List.find?, verify_otp_checks,
      hfresh]

/-- Witness for `create_otp_lifts_block`: resending over a blocked record at
minute 30 yields a fresh unblocked record whose code verifies at minute 40. -/
theorem create_otp_lifts_block_witness :
    (create_otp [otpBlocked] 30 "+20100" "654321").1 =
      { phone_number := "+20100", otp_code := "654321",
        expires_at := 30 + OTP_EXPIRY_MINUTES, attempts := 0,
        is_blocked := false, blocked_until := none } ∧
    get_otp (create_otp [otpBlocked] 30 "+20100" "654321").2 "+20100" =
      some (create_otp [otpBlocked] 30 "+20100" "654321").1 ∧
    (∀ o ∈ (create_otp [otpBlocked] 30 "+20100" "654321").2,
      o.phone_number = "+20100" →
        o = (create_otp [otpBlocked] 30 "+20100" "654321").1) ∧
    verify_otp (create_otp [otpBlocked] 30 "+20100" "654321").2 40 "+20100"
        "654321" =
      ((true, ""), (create_otp [otpBlocked] 30 "+20100" "654321").2) :=
  create_otp_lifts_block [otpBlocked] 30 40 "+20100" "654321" (by decide)

/-- When the role's tenant check passes, `assign_role_to_user` succeeds, leaves
the `UserCompany` and `Invitation` tables untouched, and afterwards a
non-deleted assignment of the role on the association exists. -/
theorem assign_role_to_user_ok (db : AccessDB) (uc : UserCompany) (role : Role)
    (h : role.company = none ∨ role.company = some uc.company) :
    ∃ ucr db2, assign_role_to_user db uc role = Except.ok (ucr, db2) ∧
      db2.user_companies = db.user_companies ∧
      db2.invitations = db.invitations ∧
      ucr.user_company = uc.ucid ∧ ucr.role = role.rid ∧
      ucr.is_deleted = false ∧ ucr ∈ db2.user_company_roles := by
  have hguard : ¬(role.company ≠ none ∧ role.company ≠ some uc.company) := by
    rcases h with h | h <;> simp [h]
  unfold assign_role_to_user
  rw [if_neg hguard]
  cases hfind : db.user_company_roles.find? (fun x =>
      x.user_company == uc.ucid && x.role == role.rid) with
  | none =>
    exact ⟨_, _, rfl, rfl, rfl, rfl, rfl, rfl, List.mem_cons_self _ _⟩
  | some ucr =>
    have hmem : ucr ∈ db.user_company_roles := List.mem_of_find?_eq_some hfind
    have hcond := List.find?_some hfind
    simp only [Bool.and_eq_true, beq_iff_eq] at hcond
    by_cases hdel : ucr.is_deleted = true
    · refine ⟨{ ucr with is_deleted := false },
        set_user_company_role db { ucr with is_deleted := false },
        by simp [hdel], rfl, rfl, hcond.1, hcond.2, rfl, ?_⟩
      have himg := List.mem_map_of_mem (fun x =>
        if x.ucrid == UserCompanyRole.ucrid { ucr with is_deleted := false }
        then { ucr with is_deleted := false } else x) hmem
      simpa [set_user_company_role] using himg
    · exact ⟨ucr, db, by simp [hdel], rfl, rfl, hcond.1, hcond.2,
        Bool.not_eq_true _ ▸ hdel, hmem⟩

/-- Claim C10: when the accepting user's `UserCompany` row for the invitation's
company exists, is NOT soft-deleted but is inactive (`is_active = false`),
`accept_invitation` completes successfully, returns that same row, leaves the
`UserCompany` table entirely unchanged (so `is_active` stays false and the
user still has no active association), marks the invitation accepted, and
grants the invitation's role. Reactivation happens only for soft-deleted
rows. -/
theorem accept_preserves_inactive_user_company
    (db : AccessDB) (now : Nat) (token : String) (user : UserRef)
    (inv : Invitation) (uc : UserCompany) (r : Role)
    (hinv : db.invitations.find? (fun i =>
      i.token == token && i.status == InvStatus.pending) = some inv)
    (hexp : ¬ inv.expires_at < now)
    (hemail : py_lower user.email = py_lower inv.email)
    (hrfind : db.roles.find? (fun x => x.rid == inv.role) = some r)
    (hrco : r.company = none ∨ r.company = some inv.company)
    (hucfind : db.user_companies.find? (fun x =>
      x.user == user.uid && x.company == inv.company) = some uc)
    (hnotdel : uc.is_deleted = false)
    (hinactive : uc.is_active = false) :
    ∃ ucr db',
      accept_invitation db now token user = (Except.ok (uc, ucr), db') ∧
      db'.user_companies = db.user_companies ∧
      ({ inv with status := InvStatus.accepted,
                  accepted_by := some user.uid } ∈ db'.invitations) ∧
      ucr.user_company = uc.ucid ∧ ucr.role = r.rid ∧
      ucr.is_deleted = false ∧ ucr ∈ db'.user_company_roles := by
  have huc := List.find?_some hucfind
  simp only [Bool.and_eq_true, beq_iff_eq] at huc
  have hassoc : associate_user_with_company db user.uid inv.company =
      (uc, db) := by
    unfold associate_user_with_company
    rw [hucfind]
    simp [hnotdel]
  have hrco' : r.company = none ∨ r.company = some uc.company := by
    rcases hrco with h | h
    · exact Or.inl h
    · exact Or.inr (by rw [h, huc.2])
  obtain ⟨ucr, db2, heq, hucs, hinvs, hcu, hcr, hcd, hcm⟩ :=
    assign_role_to_user_ok db uc r hrco'
  have hinvmem : inv ∈ db.invitations := List.mem_of_find?_eq_some hinv
  refine ⟨ucr, set_invitation db2
    { inv with status := InvStatus.accepted,
               accepted_by := some user.uid }, ?_, ?_, ?_, hcu, hcr, hcd, ?_⟩
  · simp only [accept_invitation, hinv]
    rw [if_neg hexp]
    rw [if_neg (show ¬(py_lower user.email ≠ py_lower inv.email) by
      simp [hemail])]
    simp only [hrfind, hassoc, heq]
  · show db2.user_companies = db.user_companies
    exact hucs
  · show _ ∈ db2.invitations.map _
    rw [hinvs]
    have himg := List.mem_map_of_mem (fun i =>
      if i.iid == Invitation.iid { inv with status := InvStatus.accepted,
                                            accepted_by := some user.uid }
      then { inv with status := InvStatus.accepted,
                      accepted_by := some user.uid } else i) hinvmem
    simpa using himg
  · show ucr ∈ db2.user_company_roles
    exact hcm

/-- Witness for `accept_preserves_inactive_user_company`: user 3 accepts
`pendingInv` at minute 100 while holding the inactive association
`ucInactive`. -/
theorem accept_inactive_witness :
    ∃ ucr db',
      accept_invitation inactiveAcceptDB 100 "tok1"
          { uid := 3, email := "a@b.com" } =
        (Except.ok (ucInactive, ucr), db') ∧
      db'.user_companies = inactiveAcceptDB.user_companies ∧
      ({ pendingInv with status := InvStatus.accepted,
                         accepted_by := some 3 } ∈ db'.invitations) ∧
      ucr.user_company = ucInactive.ucid ∧ ucr.role = adminRole.rid ∧
      ucr.is_deleted = false ∧ ucr ∈ db'.user_company_roles :=
  accept_preserves_inactive_user_company inactiveAcceptDB 100 "tok1"
    { uid := 3, email := "a@b.com" } pendingInv ucInactive adminRole
    (by decide) (by decide) rfl (by decide) (Or.inr rfl) (by decide) rfl rfl

end Ouvira
